import Mathlib

/-!
Shallow embedding of `src/main.rs` of the good_morning program.

The program reads configuration from environment variables, parses a
recipient list, fetches weather (with a fallback on failure), asks a local
model for a greeting, formats the message with mention tokens, and posts it.
`main` launches a subprocess, runs the pipeline, races the pipeline outcome
against a Ctrl+C notification in a `select`, kills the subprocess once, and
returns the pipeline result.

External effects (HTTP fetches, the generation API, header construction)
are passed in as explicit `Except` values; the pure logic (parsing,
mapping, formatting, trimming, control flow) is translated directly from
the source.
-/

namespace GoodMorning

/-- Unicode code points with the White_Space property, the set trimmed by
Rust's `str::trim`. -/
def rustWhitespaceCodes : List Nat :=
  [0x09, 0x0A, 0x0B, 0x0C, 0x0D, 0x20, 0x85, 0xA0, 0x1680,
   0x2000, 0x2001, 0x2002, 0x2003, 0x2004, 0x2005, 0x2006, 0x2007,
   0x2008, 0x2009, 0x200A, 0x2028, 0x2029, 0x202F, 0x205F, 0x3000]

/-- Rust `char::is_whitespace`. -/
def rustIsWhitespace (c : Char) : Bool :=
  rustWhitespaceCodes.contains c.toNat

/-- Rust `str::trim`: remove leading and trailing whitespace. -/
def rustTrim (s : String) : String :=
  String.mk (((s.data.dropWhile rustIsWhitespace).reverse.dropWhile
      rustIsWhitespace).reverse)

/-- Decimal value of a digit string. -/
def digitsToNat (l : List Char) : Nat :=
  l.foldl (fun acc c => acc * 10 + (c.toNat - 48)) 0

/-- Rust `str::parse::<u64>()` as an `Option`: an optional leading plus
sign, then one or more ASCII digits, and the value must fit in 64 bits;
anything else fails (the source only uses `.ok()` of this result). -/
def parseU64? (s : String) : Option Nat :=
  let body :=
    match s.data with
    | c :: rest => if c = '+' then rest else c :: rest
    | [] => []
  if 0 < body.length && body.all Char.isDigit then
    let n := digitsToNat body
    if n < 2 ^ 64 then some n else none
  else none

/-- Rust `str::split(',')` at the character level: split on every comma,
keeping empty pieces; the empty string gives one empty piece. -/
def splitComma : List Char → List (List Char)
  | [] => [[]]
  | c :: rest =>
    match splitComma rest with
    | [] => [[c]]
    | piece :: pieces =>
      if c = ',' then [] :: piece :: pieces else (c :: piece) :: pieces

/-- The token list `members_str.split(',')` produces. -/
def splitTokens (s : String) : List String :=
  (splitComma s.data).map String.mk

/-- Rust slice `chunks(2)`: consecutive groups of two, the last group may
have a single element. -/
def chunks2 : List String → List (List String)
  | [] => []
  | [x] => [[x]]
  | x :: y :: rest => [x, y] :: chunks2 rest

/-- The `filter_map` closure in `parse_members`: a two-element chunk whose
second token parses as `u64` yields a pair, every other chunk is dropped. -/
def parse_chunk (c : List String) : Option (String × Nat) :=
  match c with
  | [name, idStr] => (parseU64? idStr).map (fun id => (name, id))
  | _ => none

/-- The pure part of `parse_members` in `main.rs`: split the configuration
string on the comma, take chunks of two, and keep the chunks that form a
(name, u64 identifier) pair. -/
def parse_members_str (s : String) : List (String × Nat) :=
  (chunks2 (splitTokens s)).filterMap parse_chunk

/-- `parse_members` in `main.rs`: reading `GOOD_MORNING_MEMBERS` may fail
(missing variable); a readable value is parsed by `parse_members_str` and
never fails. The error text renders Rust's
`format!("Failed to read 'GOOD_MORNING_MEMBERS': {}", err)` with
`VarError::NotPresent`. -/
def parse_members (memberVar : Option String) :
    Except String (List (String × Nat)) :=
  match memberVar with
  | none => .error
      "Failed to read \x27GOOD_MORNING_MEMBERS\x27: environment variable not found"
  | some s => .ok (parse_members_str s)

/-- `map_weather_code_to_description` in `main.rs`: the `match` on the
`i32` weather code, arm by arm in source order. `Int` is faithful here:
the code is only compared against constants, never operated on. -/
def map_weather_code_to_description (code : Int) : String :=
  if code = 0 then "clear sky"
  else if 1 ≤ code ∧ code ≤ 3 then "partly cloudy"
  else if code = 45 ∨ code = 48 then "fog"
  else if 51 ≤ code ∧ code ≤ 57 then "drizzle"
  else if 61 ≤ code ∧ code ≤ 67 then "rain"
  else if 71 ≤ code ∧ code ≤ 77 then "snow"
  else if 80 ≤ code ∧ code ≤ 82 then "showers"
  else if code = 95 ∨ code = 96 ∨ code = 99 then "thunderstorm"
  else "unknown weather"

/-- `get_weather` in `main.rs`, with the HTTP GET and JSON parse abstracted
as `fetch : Except String (String × Int)`: on success it carries the
`Display` rendering of the `f32` temperature and the integer weather code;
on failure the transport or JSON error. The function formats
`"<temperature>°C, <description>"`. -/
def get_weather (fetch : Except String (String × Int)) :
    Except String String :=
  fetch.map (fun tc => tc.1 ++ "°C, " ++ map_weather_code_to_description tc.2)

/-- The fallback substituted in `run` when `get_weather` fails. -/
def weatherFallback : String :=
  "не удалось получить данные о погоде"

/-- Rust `Vec::join`: elements interleaved with the separator. -/
def joinStrings (sep : String) : List String → String
  | [] => ""
  | [x] => x
  | x :: y :: rest => x ++ sep ++ joinStrings sep (y :: rest)

/-- The prompt built in `generate_greeting`, embedding the joined recipient
names and the weather string. -/
def build_prompt (members : List (String × Nat)) (weather_info : String) :
    String :=
  "Create a kawaii, uwu and cute morning greeting in Russian, including information about the weather for the day for: "
    ++ joinStrings ", " (members.map (fun p => p.1))
    ++ ". Weather: " ++ weather_info
    ++ ". Include a suggestion on how to dress appropriately for the weather and etc. The response should be a direct greeting, without any explanations or additional details."

/-- `generate_greeting` in `main.rs`, with the ollama call abstracted as
`response : Except String String` (its `.response` field on success): the
source maps success through `trim` and propagates the error. -/
def generate_greeting (response : Except String String) :
    Except String String :=
  response.map rustTrim

/-- `format_message` in `main.rs`: the generated text, a newline, then the
mention tokens `<@id>` joined by single spaces in member order. -/
def format_message (members : List (String × Nat))
    (generated_message : String) : String :=
  let mentions := joinStrings " " (members.map (fun p => "<@" ++ toString p.2 ++ ">"))
  generated_message ++ "\n" ++ mentions

/-- `send_message` in `main.rs`. `headerResult` abstracts
`HeaderValue::from_str(token)?` (fails on invalid header characters) and
`transport` abstracts `.send().await?`: a transport failure carries the
reqwest error text, a completed exchange carries the HTTP status and the
`Display` text reqwest would give a status error for that response.
`error_for_status()` fails exactly on client and server error statuses
(400–599); only that failure is wrapped in
`"Failed to send message: ..."` — the two `?` propagate their errors
unchanged. -/
def send_message (headerResult : Except String Unit)
    (transport : Except String (Nat × String)) : Except String Unit :=
  match headerResult with
  | .error e => .error e
  | .ok _ =>
    match transport with
    | .error e => .error e
    | .ok sd =>
      if 400 ≤ sd.1 ∧ sd.1 ≤ 599 then
        .error ("Failed to send message: " ++ sd.2)
      else .ok ()

/-- The environment variables `run` reads, `none` meaning not set. -/
structure Env where
  token : Option String
  channelId : Option String
  members : Option String

/-- The outcomes of the external calls `run` can make. -/
structure Effects where
  weather : Except String (String × Int)
  generate : Except String String
  headerResult : Except String Unit
  transport : Except String (Nat × String)

/-- What a run did and produced: which stages were reached, the weather
string and prompt handed to the generator, the message handed to the
sender, and the pipeline result. -/
structure RunTrace where
  weatherAttempted : Bool
  weatherUsed : Option String
  generateAttempted : Bool
  promptUsed : Option String
  sendAttempted : Bool
  sentMessage : Option String
  result : Except String Unit

/-- `env_var_error` in `main.rs`, rendered with `VarError::NotPresent`. -/
def env_var_error (var : String) : String :=
  "Failed to find " ++ var ++ ": environment variable not found"

/-- `run` in `main.rs`: read the token, the channel id and the member
list (each missing variable is fatal, in that order), parse members,
fetch weather with the fallback on failure, generate the greeting (fatal
on failure), format, and send. -/
def run (env : Env) (fx : Effects) : RunTrace :=
  match env.token with
  | none =>
      ⟨false, none, false, none, false, none,
        .error (env_var_error "GOOD_MORNING_DISCORD_TOKEN")⟩
  | some _token =>
    match env.channelId with
    | none =>
        ⟨false, none, false, none, false, none,
          .error (env_var_error "GOOD_MORNING_CHANNEL_ID")⟩
    | some _channelId =>
      match parse_members env.members with
      | .error e => ⟨false, none, false, none, false, none, .error e⟩
      | .ok members =>
        let weather_info :=
          match get_weather fx.weather with
          | .ok w => w
          | .error _ => weatherFallback
        let prompt := build_prompt members weather_info
        match generate_greeting fx.generate with
        | .error e =>
            ⟨true, some weather_info, true, some prompt, false, none, .error e⟩
        | .ok generated_message =>
          let final_message := format_message members generated_message
          ⟨true, some weather_info, true, some prompt, true, some final_message,
            send_message fx.headerResult fx.transport⟩

/-- The two branches of the `tokio::select!` in `main`. -/
inductive SelectBranch
  | shutdown
  | appDone
deriving DecidableEq

/-- Which branches of the `select` are ready when it runs. `run` was
already awaited on the line before, so the application branch is always
ready; the shutdown branch is ready exactly when Ctrl+C has fired. -/
def branchReady (interruptReceived : Bool) : SelectBranch → Bool
  | .shutdown => interruptReceived
  | .appDone => true

/-- What `main` does after `run` returns. -/
structure MainTrace where
  logMsg : String
  killCalls : Nat
  exit : Except String Unit

/-- The tail of `main` in `main.rs`: the `select` prints the message of
the winning branch, then the subprocess is killed once if its handle is
still live, and `run_result` is returned as the process result whichever
branch won. -/
def mainAfterRun (processAlive : Bool) (runResult : Except String Unit)
    (branch : SelectBranch) : MainTrace :=
  let msg :=
    match branch with
    | .shutdown => "Shutdown signal received, terminating `ollama serve`..."
    | .appDone => "Application terminated, terminating `ollama serve`..."
  { logMsg := msg
    killCalls := if processAlive then 1 else 0
    exit := runResult }

/-- The exit code of a process whose `main` returns `Result<(), _>`:
`Ok` exits 0, `Err` prints the error and exits 1. -/
def exitCode : Except String Unit → Nat
  | .ok _ => 0
  | .error _ => 1

/-- Observable outcome of the whole process: whether the pipeline ran,
how often the subprocess kill was issued, and the process exit code. -/
structure ProcessTrace where
  pipelineRan : Bool
  killCalls : Nat
  exitNum : Nat

/-- `main` in `main.rs` end to end, with the spawn outcome abstracted as
`launch`: `Command::new("ollama").arg("serve").spawn()` is unwrapped with
`expect`, so a launch failure panics — the process exits with the panic
exit code 101 before the pipeline, the select or the kill are reached;
on success the pipeline runs and the tail of `main` (`mainAfterRun`)
decides the kill count and the exit code. -/
def mainModel (launch : Except String Unit) (alive : Bool)
    (runResult : Except String Unit) (branch : SelectBranch) :
    ProcessTrace :=
  match launch with
  | .error _ => ⟨false, 0, 101⟩
  | .ok _ =>
    ⟨true, (mainAfterRun alive runResult branch).killCalls,
      exitCode (mainAfterRun alive runResult branch).exit⟩

/-! ### Spec-side definitions, written from the claims' words, for
refinement comparisons against the source-derived definitions above. -/

/-- From the claim's words: consume the token list as consecutive
(name, identifier) pairs; keep a pair when the identifier token parses as
an unsigned 64-bit integer, drop it otherwise, and drop a trailing
odd-length chunk; keep input order. -/
def pairsOfTokensSpec : List String → List (String × Nat)
  | name :: idStr :: rest =>
    (match parseU64? idStr with
     | some id => (name, id) :: pairsOfTokensSpec rest
     | none => pairsOfTokensSpec rest)
  | _ => []

/-- From the claim's words: the fixed range table read back to front, with
"unknown weather" for every code outside the listed ranges. -/
def claimWeatherDescription (code : Int) : String :=
  if code = 95 ∨ code = 96 ∨ code = 99 then "thunderstorm"
  else if 80 ≤ code ∧ code ≤ 82 then "showers"
  else if 71 ≤ code ∧ code ≤ 77 then "snow"
  else if 61 ≤ code ∧ code ≤ 67 then "rain"
  else if 51 ≤ code ∧ code ≤ 57 then "drizzle"
  else if code = 45 ∨ code = 48 then "fog"
  else if 1 ≤ code ∧ code ≤ 3 then "partly cloudy"
  else if code = 0 then "clear sky"
  else "unknown weather"

/-- The nine descriptions the mapping can produce. -/
def weatherDescriptions : List String :=
  ["clear sky", "partly cloudy", "fog", "drizzle", "rain", "snow",
   "showers", "thunderstorm", "unknown weather"]

/-- From the claim's words: the mention tokens of the recipients joined by
single spaces in recipient-list order. -/
def joinMentionsSpec : List (String × Nat) → String
  | [] => ""
  | [p] => "<@" ++ toString p.2 ++ ">"
  | p :: q :: rest =>
    ("<@" ++ toString p.2 ++ ">") ++ " " ++ joinMentionsSpec (q :: rest)

/-! ### Helper lemmas -/

/-- Chunking into pairs and keeping the valid ones agrees with the direct
two-at-a-time recursion of the claim. -/
theorem chunks2_filterMap_eq_pairs : ∀ ts : List String,
    (chunks2 ts).filterMap parse_chunk = pairsOfTokensSpec ts
  | [] => rfl
  | [x] => rfl
  | x :: y :: rest => by
    simp only [chunks2, List.filterMap_cons, parse_chunk, pairsOfTokensSpec]
    cases h : parseU64? y <;>
      simp [h, Option.map, chunks2_filterMap_eq_pairs rest]

/-- `Vec::join` of the mention tokens agrees with the claim's direct
space-joined recursion. -/
theorem joinStrings_mentions : ∀ members : List (String × Nat),
    joinStrings " " (members.map (fun p => "<@" ++ toString p.2 ++ ">")) =
      joinMentionsSpec members
  | [] => rfl
  | [p] => rfl
  | p :: q :: rest => by
    have ih := joinStrings_mentions (q :: rest)
    simp only [List.map] at ih
    simp only [List.map, joinStrings, joinMentionsSpec]
    rw [ih]

/-! ### Claim theorems -/

/-- C1: parsing the recipient-list string splits on the comma into
consecutive (name, identifier) pairs; "Alice,123,Bob,456" yields exactly
[("Alice",123),("Bob",456)]; a pair whose identifier token does not parse
as a u64 and a trailing odd-length chunk are silently dropped while the
remaining valid pairs are kept in input order (expressed by agreement with
the claim's direct two-at-a-time recursion over the comma-split tokens). -/
theorem c1_parse_members_pairs :
    (∀ s : String, parse_members_str s = pairsOfTokensSpec (splitTokens s)) ∧
    parse_members_str "Alice,123,Bob,456" = [("Alice", 123), ("Bob", 456)] ∧
    parse_members_str "Alice,abc,Bob,456" = [("Bob", 456)] ∧
    parse_members_str "Alice,123,Bob" = [("Alice", 123)] ∧
    parse_members_str "Alice,18446744073709551616,Bob,456" = [("Bob", 456)] :=
  ⟨fun s => chunks2_filterMap_eq_pairs (splitTokens s), rfl, rfl, rfl, rfl⟩

/-- C2: for every integer weather code the mapping returns exactly one of
the nine fixed descriptions following the fixed range table (expressed by
agreement with the claim's table read back to front, plus membership in
the list of nine descriptions), with 2 → "partly cloudy", 63 → "rain",
96 → "thunderstorm" and 14 → "unknown weather". -/
theorem c2_weather_code_table :
    (∀ code : Int,
      map_weather_code_to_description code = claimWeatherDescription code) ∧
    (∀ code : Int,
      map_weather_code_to_description code ∈ weatherDescriptions) ∧
    map_weather_code_to_description 2 = "partly cloudy" ∧
    map_weather_code_to_description 63 = "rain" ∧
    map_weather_code_to_description 96 = "thunderstorm" ∧
    map_weather_code_to_description 14 = "unknown weather" := by
  refine ⟨?_, ?_, rfl, rfl, rfl, rfl⟩
  · intro code
    unfold map_weather_code_to_description claimWeatherDescription
    split_ifs <;> first | rfl | omega
  · intro code
    unfold map_weather_code_to_description weatherDescriptions
    split_ifs <;> simp

/-- C3: message formatting is a pure function returning the generated
text, a newline, then the mention tokens `<@id>` joined by single spaces
in recipient order (expressed by agreement with the claim's direct
space-joined recursion), and on [("Alice",123),("Bob",456)] with
"Good morning!" gives exactly "Good morning!\n<@123> <@456>". -/
theorem c3_format_message_shape :
    (∀ (members : List (String × Nat)) (text : String),
      format_message members text = text ++ "\n" ++ joinMentionsSpec members) ∧
    format_message [("Alice", 123), ("Bob", 456)] "Good morning!" =
      "Good morning!\n<@123> <@456>" :=
  ⟨fun members text => by
    simp only [format_message]
    rw [joinStrings_mentions members], rfl⟩

/-- C10: with the recipient-list variable readable, parsing always
returns a list and never an error — also on the empty string and on
strings with no valid pair — and with an empty recipient list the
formatter still emits the newline, so the message is the generated text
followed by a newline and an empty mention block. -/
theorem c10_parse_total_empty_mentions :
    (∀ s : String, ∃ l, parse_members (some s) = Except.ok l) ∧
    parse_members_str "" = [] ∧
    parse_members_str "nonsense" = [] ∧
    (∀ t : String, format_message [] t = t ++ "\n") ∧
    format_message [] "Good morning!" = "Good morning!\n" := by
  refine ⟨fun s => ⟨parse_members_str s, rfl⟩, rfl, rfl, ?_, rfl⟩
  intro t
  simp only [format_message, List.map_nil, joinStrings]
  rw [String.append_empty]

/-- C4: a failing weather lookup does not abort the run: the fallback
phrase replaces the weather string, the pipeline proceeds to generation
with that fallback embedded in the prompt, and with the downstream calls
succeeding the run still ends in success; on success the weather string
has the exact shape "<temperature>°C, <description>". -/
theorem c4_weather_fallback :
    (∀ (tok ch mem e : String) (fx : Effects),
      fx.weather = .error e →
        (run ⟨some tok, some ch, some mem⟩ fx).weatherUsed =
            some weatherFallback ∧
          (run ⟨some tok, some ch, some mem⟩ fx).generateAttempted = true ∧
          (run ⟨some tok, some ch, some mem⟩ fx).promptUsed =
            some (build_prompt (parse_members_str mem) weatherFallback)) ∧
    (∀ tok ch mem e g d : String,
      (run ⟨some tok, some ch, some mem⟩
          ⟨.error e, .ok g, .ok (), .ok (200, d)⟩).result = .ok ()) ∧
    (∀ (t : String) (c : Int),
      get_weather (.ok (t, c)) =
        .ok (t ++ "°C, " ++ map_weather_code_to_description c)) := by
  refine ⟨?_, ?_, fun t c => rfl⟩
  · rintro tok ch mem e ⟨w, g, hr, tr⟩ hw
    simp only at hw
    subst hw
    cases g <;>
      simp [run, parse_members, get_weather, generate_greeting, Except.map]
  · intro tok ch mem e g d
    simp [run, parse_members, get_weather, generate_greeting, send_message,
      Except.map]

/-- C4 witness: with all variables set, a concrete failing weather fetch
and succeeding downstream calls, the fallback is used and the run
succeeds. -/
theorem c4_weather_fallback_witness :
    (run ⟨some "t", some "c", some "Alice,123"⟩
        ⟨.error "net", .ok "hi", .ok (), .ok (200, "")⟩).weatherUsed =
      some weatherFallback ∧
    (run ⟨some "t", some "c", some "Alice,123"⟩
        ⟨.error "net", .ok "hi", .ok (), .ok (200, "")⟩).result = .ok () :=
  ⟨(c4_weather_fallback.1 "t" "c" "Alice,123" "net"
      ⟨.error "net", .ok "hi", .ok (), .ok (200, "")⟩ rfl).1,
    c4_weather_fallback.2.1 "t" "c" "Alice,123" "net" "hi" ""⟩

/-- C5: a failing greeting generation aborts the run with the generation
error and the sender is never invoked; on success the forwarded greeting
is the generated text with leading and trailing whitespace stripped
(the message handed to the sender is the formatted trim of the raw
generation output). -/
theorem c5_generation_failure_aborts :
    ∀ (tok ch mem : String) (fx : Effects),
      (∀ e, fx.generate = .error e →
        (run ⟨some tok, some ch, some mem⟩ fx).result = .error e ∧
          (run ⟨some tok, some ch, some mem⟩ fx).sendAttempted = false ∧
          (run ⟨some tok, some ch, some mem⟩ fx).sentMessage = none) ∧
      (∀ raw, fx.generate = .ok raw →
        (run ⟨some tok, some ch, some mem⟩ fx).sentMessage =
            some (format_message (parse_members_str mem) (rustTrim raw)) ∧
          (run ⟨some tok, some ch, some mem⟩ fx).sendAttempted = true) := by
  rintro tok ch mem ⟨w, g, hr, tr⟩
  constructor
  · rintro e hg
    simp only at hg
    subst hg
    cases w <;>
      simp [run, parse_members, get_weather, generate_greeting, Except.map]
  · rintro raw hg
    simp only at hg
    subst hg
    cases w <;>
      simp [run, parse_members, get_weather, generate_greeting, Except.map]

/-- C5 witness: with a concrete failing generation the run returns that
error and nothing is sent; with a concrete successful generation the
trimmed text is what gets formatted and sent. -/
theorem c5_generation_failure_witness :
    (run ⟨some "t", some "c", some "Alice,123"⟩
        ⟨.ok ("5", 0), .error "gen down", .ok (), .ok (200, "")⟩).result =
      .error "gen down" ∧
    (run ⟨some "t", some "c", some "Alice,123"⟩
        ⟨.ok ("5", 0), .error "gen down", .ok (), .ok (200, "")⟩).sendAttempted =
      false ∧
    (run ⟨some "t", some "c", some "Alice,123"⟩
        ⟨.ok ("5", 0), .ok " hi ", .ok (), .ok (200, "")⟩).sentMessage =
      some (format_message (parse_members_str "Alice,123") (rustTrim " hi ")) :=
  ⟨((c5_generation_failure_aborts "t" "c" "Alice,123"
      ⟨.ok ("5", 0), .error "gen down", .ok (), .ok (200, "")⟩).1
      "gen down" rfl).1,
    ((c5_generation_failure_aborts "t" "c" "Alice,123"
      ⟨.ok ("5", 0), .error "gen down", .ok (), .ok (200, "")⟩).1
      "gen down" rfl).2.1,
    ((c5_generation_failure_aborts "t" "c" "Alice,123"
      ⟨.ok ("5", 0), .ok " hi ", .ok (), .ok (200, "")⟩).2
      " hi " rfl).1⟩

/-- C6 counterexample: a transport failure of the send (the first `?` in
`send_message`) is propagated verbatim, not wrapped in the descriptive
"Failed to send message: ..." message; and a 304 response — a non-2xx
status — is not treated as a failure, because `error_for_status` only
fails on 400–599. -/
theorem c6_counterexample_unwrapped_transport :
    send_message (.ok ()) (.error "connection refused") =
      .error "connection refused" ∧
    "connection refused" ≠ "Failed to send message: connection refused" ∧
    send_message (.ok ()) (.ok (304, "status 304")) = .ok () := by
  refine ⟨rfl, ?_, rfl⟩
  decide

/-- C6 amended: the sender treats client- and server-error statuses
(400–599) as failures and wraps exactly those in the descriptive
"Failed to send message: ..." message; transport errors and
header-construction errors are propagated to the caller unchanged; any
completed response outside 400–599 (including non-2xx ones such as 304)
is a success. -/
theorem c6_send_failure_amended :
    (∀ (st : Nat) (d : String), 400 ≤ st → st ≤ 599 →
      send_message (.ok ()) (.ok (st, d)) =
        .error ("Failed to send message: " ++ d)) ∧
    (∀ e : String, send_message (.ok ()) (.error e) = .error e) ∧
    (∀ (e : String) (tr : Except String (Nat × String)),
      send_message (.error e) tr = .error e) ∧
    (∀ (st : Nat) (d : String), st < 400 ∨ 599 < st →
      send_message (.ok ()) (.ok (st, d)) = .ok ()) := by
  refine ⟨?_, fun e => rfl, fun e tr => rfl, ?_⟩
  · intro st d h1 h2
    simp [send_message, h1, h2]
  · intro st d h
    have : ¬(400 ≤ st ∧ st ≤ 599) := by omega
    simp [send_message, this]

/-- C6 amended witness: a concrete 404 is wrapped, and a concrete 304 is
accepted. -/
theorem c6_send_failure_amended_witness :
    send_message (.ok ()) (.ok (404, "status 404 Not Found")) =
      .error ("Failed to send message: " ++ "status 404 Not Found") ∧
    send_message (.ok ()) (.ok (304, "status 304")) = .ok () :=
  ⟨c6_send_failure_amended.1 404 "status 404 Not Found" (by decide) (by decide),
    c6_send_failure_amended.2.2.2 304 "status 304" (Or.inl (by decide))⟩

/-- C7: each missing configuration variable (auth token, channel id,
recipient list, checked in that order) makes the run fail with an error
naming that variable, with no weather lookup, generation or send
attempted (every stage flag of the trace is false). -/
theorem c7_missing_config_fatal :
    ∀ fx : Effects,
      (∀ chOpt memOpt, run ⟨none, chOpt, memOpt⟩ fx =
        ⟨false, none, false, none, false, none,
          .error (env_var_error "GOOD_MORNING_DISCORD_TOKEN")⟩) ∧
      (∀ tok memOpt, run ⟨some tok, none, memOpt⟩ fx =
        ⟨false, none, false, none, false, none,
          .error (env_var_error "GOOD_MORNING_CHANNEL_ID")⟩) ∧
      (∀ tok ch, run ⟨some tok, some ch, none⟩ fx =
        ⟨false, none, false, none, false, none,
          .error "Failed to read \x27GOOD_MORNING_MEMBERS\x27: environment variable not found"⟩) ∧
      env_var_error "GOOD_MORNING_DISCORD_TOKEN" =
        "Failed to find GOOD_MORNING_DISCORD_TOKEN: environment variable not found" ∧
      env_var_error "GOOD_MORNING_CHANNEL_ID" =
        "Failed to find GOOD_MORNING_CHANNEL_ID: environment variable not found" :=
  fun _fx =>
    ⟨fun _chOpt _memOpt => rfl, fun _tok _memOpt => rfl, fun _tok _ch => rfl,
      rfl, rfl⟩

/-- C8 counterexample: with the interrupt received and the shutdown
branch winning the select — an interrupt-driven completion — a failed
pipeline still makes the process exit non-zero, because `main` returns
`run_result` whichever branch won; the claim's "exits with code zero on
interrupt-driven completion" does not hold. -/
theorem c8_counterexample_interrupt_exit :
    branchReady true SelectBranch.shutdown = true ∧
    (mainAfterRun true (.error "Failed to send message: boom")
        SelectBranch.shutdown).logMsg =
      "Shutdown signal received, terminating `ollama serve`..." ∧
    exitCode (mainAfterRun true (.error "Failed to send message: boom")
        SelectBranch.shutdown).exit = 1 :=
  ⟨rfl, rfl, rfl⟩

/-- C8 amended: the process exits non-zero on every fatal failure path —
missing configuration, generation failure, send failure, and subprocess
launch failure, where the `expect` on `spawn` panics and the process
exits with the panic code 101 before the pipeline ever runs — with the
pipeline's error propagated as the process's final result, and exits
zero exactly when the pipeline succeeded; since `main` returns
`run_result` whichever select branch won, on interrupt-driven completion
the exit code still follows the pipeline outcome rather than being
unconditionally zero. -/
theorem c8_exit_codes_amended :
    (∀ (alive : Bool) (r : Except String Unit) (b : SelectBranch)
        (e : String),
      (mainModel (.error e) alive r b).exitNum = 101 ∧
        (mainModel (.error e) alive r b).exitNum ≠ 0 ∧
        (mainModel (.error e) alive r b).pipelineRan = false ∧
        (mainModel (.error e) alive r b).killCalls = 0) ∧
    (∀ (alive : Bool) (r : Except String Unit) (b : SelectBranch),
      (mainModel (.ok ()) alive r b).exitNum =
        exitCode (mainAfterRun alive r b).exit) ∧
    (∀ (alive : Bool) (r : Except String Unit) (b : SelectBranch),
      (mainAfterRun alive r b).exit = r) ∧
    (∀ (alive : Bool) (b : SelectBranch),
      exitCode (mainAfterRun alive (.ok ()) b).exit = 0) ∧
    (∀ (alive : Bool) (b : SelectBranch) (e : String),
      exitCode (mainAfterRun alive (.error e) b).exit = 1) ∧
    (∀ (alive : Bool) (b : SelectBranch) (fx : Effects)
        (chOpt memOpt : Option String),
      exitCode (mainAfterRun alive
        (run ⟨none, chOpt, memOpt⟩ fx).result b).exit = 1) ∧
    (∀ (alive : Bool) (b : SelectBranch) (tok ch mem e : String)
        (w : Except String (String × Int)) (hr : Except String Unit)
        (tr : Except String (Nat × String)),
      exitCode (mainAfterRun alive
        (run ⟨some tok, some ch, some mem⟩ ⟨w, .error e, hr, tr⟩).result
        b).exit = 1) ∧
    (∀ (alive : Bool) (b : SelectBranch) (tok ch mem g d : String)
        (w : Except String (String × Int)),
      exitCode (mainAfterRun alive
        (run ⟨some tok, some ch, some mem⟩
          ⟨w, .ok g, .ok (), .ok (404, d)⟩).result b).exit = 1) := by
  refine ⟨fun alive r b e => ⟨rfl, by simp [mainModel], rfl, rfl⟩,
    fun alive r b => rfl,
    fun alive r b => rfl, fun alive b => rfl, fun alive b e => rfl,
    fun alive b fx chOpt memOpt => rfl, ?_, ?_⟩
  · intro alive b tok ch mem e w hr tr
    cases w <;>
      simp [mainAfterRun, exitCode, run, parse_members, get_weather,
        generate_greeting, Except.map]
  · intro alive b tok ch mem g d w
    cases w <;>
      simp [mainAfterRun, exitCode, run, parse_members, get_weather,
        generate_greeting, send_message, Except.map]

/-- C9: the select races the pipeline outcome against the interrupt
notification (the shutdown branch is ready exactly when the interrupt
fired, the application branch is always ready once `run` returned), and
whichever ready branch wins, the subprocess termination hook runs exactly
once per run while the handle is live — never a second time from the
other path — and never more than once. -/
theorem c9_teardown_once :
    ∀ (interrupt alive : Bool) (r : Except String Unit) (b : SelectBranch),
      branchReady interrupt b = true →
        (mainAfterRun alive r b).killCalls ≤ 1 ∧
          (alive = true → (mainAfterRun alive r b).killCalls = 1) ∧
          (∀ b', branchReady interrupt b' = true →
            (mainAfterRun alive r b').killCalls =
              (mainAfterRun alive r b).killCalls) := by
  intro interrupt alive r b hb
  refine ⟨?_, ?_, ?_⟩
  · cases alive <;> simp [mainAfterRun]
  · intro ha
    subst ha
    simp [mainAfterRun]
  · intro b' hb'
    rfl

/-- C9 witness: with the interrupt received before completion, a live
handle and the shutdown branch winning, teardown runs exactly once, and
the application branch would have issued exactly the same single
teardown. -/
theorem c9_teardown_once_witness :
    branchReady true SelectBranch.shutdown = true ∧
    (mainAfterRun true (.ok ()) SelectBranch.shutdown).killCalls ≤ 1 ∧
    (mainAfterRun true (.ok ()) SelectBranch.shutdown).killCalls = 1 ∧
    (mainAfterRun true (.ok ()) SelectBranch.appDone).killCalls =
      (mainAfterRun true (.ok ()) SelectBranch.shutdown).killCalls :=
  ⟨rfl,
    (c9_teardown_once true true (.ok ()) SelectBranch.shutdown rfl).1,
    (c9_teardown_once true true (.ok ()) SelectBranch.shutdown rfl).2.1 rfl,
    (c9_teardown_once true true (.ok ()) SelectBranch.shutdown rfl).2.2
      SelectBranch.appDone rfl⟩

end GoodMorning
